import Mathlib

/-!
# Verification of the test-generator repository

A shallow embedding of the two entry shells (`script.py` and
`streamlit_app.py`) of the test-generator repository, together with the
parts of the Python runtime their behaviour depends on: `json.loads`,
`dict.get`, truthiness, `len`, and `for`-iteration.  Streamlit calls are
modelled as an ordered list of UI events; the remote model endpoint is a
stub transport function, and every embedding of a client operation also
returns the number of transport invocations it performed.
-/

/-- A parsed JSON value, as produced by Python's `json.loads`: numbers keep
a flag recording whether they were lexed as a float (fraction or exponent
present) or an int, since Python distinguishes those types downstream;
`json.loads` additionally accepts the non-standard literals `NaN`,
`Infinity` and `-Infinity`.  Objects keep their key/value pairs in source
order; lookup takes the last binding of a duplicated key and iteration
uses first-occurrence order, matching Python `dict` construction. -/
inductive Json where
  | null
  | bool (b : Bool)
  | num (q : Rat) (isFloat : Bool)
  | nan
  | inf (neg : Bool)
  | str (s : String)
  | arr (elems : List Json)
  | obj (kvs : List (String × Json))

/-- The opening-brace character, written via its code point. -/
def lBraceChar : Char := Char.ofNat 123

/-- The closing-brace character, written via its code point. -/
def rBraceChar : Char := Char.ofNat 125

/-- JSON whitespace accepted between tokens (space, tab, newline, CR). -/
def skipWs : List Char → List Char
  | [] => []
  | c :: rest =>
    if c = ' ' ∨ c = '\t' ∨ c = '\n' ∨ c = '\r' then skipWs rest else c :: rest

/-- Drop `lit` from the front of `cs` when it is an exact prefix. -/
def stripPfx : List Char → List Char → Option (List Char)
  | [], rest => some rest
  | _ :: _, [] => none
  | l :: ls, c :: rest => if c = l then stripPfx ls rest else none

/-- Value of a hexadecimal digit, if any. -/
def hexDigit (c : Char) : Option Nat :=
  if '0' ≤ c ∧ c ≤ '9' then some (c.toNat - 48)
  else if 'a' ≤ c ∧ c ≤ 'f' then some (c.toNat - 87)
  else if 'A' ≤ c ∧ c ≤ 'F' then some (c.toNat - 55)
  else none

/-- Single-character string escapes of JSON. -/
def escChar (c : Char) : Option Char :=
  if c = '"' then some '"'
  else if c = '\\' then some '\\'
  else if c = '/' then some '/'
  else if c = 'b' then some (Char.ofNat 8)
  else if c = 'f' then some (Char.ofNat 12)
  else if c = 'n' then some '\n'
  else if c = 'r' then some (Char.ofNat 13)
  else if c = 't' then some '\t'
  else none

/-- Body of a JSON string literal, after the opening quote: returns the
decoded characters and the input remaining after the closing quote.
Strict mode of `json.loads`: raw control characters are rejected.
`\uXXXX` decodes to the corresponding code point (surrogate-pair
combination is not modelled).  The fuel argument exceeds the input
length at every call site, so the fuel-exhaustion branch is dead. -/
def parseStringBody : Nat → List Char → Except String (List Char × List Char)
  | _, [] => .error "Unterminated string"
  | 0, _ :: _ => .error "Unterminated string"
  | Nat.succ fuel, c :: rest =>
    if c = '"' then .ok ([], rest)
    else if c = '\\' then
      match rest with
      | [] => .error "Unterminated string"
      | e :: rest2 =>
        if e = 'u' then
          match rest2 with
          | h1 :: h2 :: h3 :: h4 :: rest3 =>
            match hexDigit h1, hexDigit h2, hexDigit h3, hexDigit h4 with
            | some a, some b, some c2, some d =>
              let code := ((a * 16 + b) * 16 + c2) * 16 + d
              (parseStringBody fuel rest3).map
                (fun p => (Char.ofNat code :: p.1, p.2))
            | _, _, _, _ => .error "Invalid \\uXXXX escape"
          | _ => .error "Invalid \\uXXXX escape"
        else
          match escChar e with
          | some ch =>
            (parseStringBody fuel rest2).map (fun p => (ch :: p.1, p.2))
          | none => .error "Invalid \\escape"
    else if c.toNat < 32 then .error "Invalid control character"
    else (parseStringBody fuel rest).map (fun p => (c :: p.1, p.2))

/-- Longest prefix of decimal digits, with the rest of the input. -/
def spanDigits : List Char → List Char × List Char
  | [] => ([], [])
  | c :: rest =>
    if c.isDigit then
      let p := spanDigits rest
      (c :: p.1, p.2)
    else ([], c :: rest)

/-- Decimal digits to a natural number. -/
def digitsToNat (ds : List Char) : Nat :=
  ds.foldl (fun a c => a * 10 + (c.toNat - 48)) 0

/-- Lex a JSON number per the grammar of `json.loads`
(`-?(0|[1-9][0-9]*)(.[0-9]+)?([eE][+-]?[0-9]+)?`, maximal match; any
following characters are left for the caller).  The value is exact as a
rational; the float flag records whether a fraction or exponent was
present. -/
def parseNumber (cs : List Char) : Except String (Json × List Char) :=
  let sign := match cs with
    | '-' :: r => (true, r)
    | _ => (false, cs)
  match sign.2 with
  | [] => .error "Expecting value"
  | c :: _ =>
    if c.isDigit then
      let ipPair :=
        if c = '0' then ([c], sign.2.drop 1)
        else spanDigits sign.2
      let fracPart :=
        match ipPair.2 with
        | '.' :: r =>
          let p := spanDigits r
          if p.1 = [] then (([] : List Char), ipPair.2, false)
          else (p.1, p.2, true)
        | _ => (([] : List Char), ipPair.2, false)
      let expPart :=
        match fracPart.2.1 with
        | e :: r =>
          if e = 'e' ∨ e = 'E' then
            let signedR := match r with
              | '+' :: rr => (false, rr)
              | '-' :: rr => (true, rr)
              | _ => (false, r)
            let p := spanDigits signedR.2
            if p.1 = [] then ((0 : Int), fracPart.2.1, false)
            else
              (((if signedR.1 then -(digitsToNat p.1 : Int)
                 else (digitsToNat p.1 : Int))), p.2, true)
          else ((0 : Int), fracPart.2.1, false)
        | [] => ((0 : Int), fracPart.2.1, false)
      let base : Rat :=
        (digitsToNat ipPair.1 : Rat) +
          (digitsToNat fracPart.1 : Rat) / ((10 : Rat) ^ fracPart.1.length)
      let value : Rat := (if sign.1 then -base else base) * (10 : Rat) ^ expPart.1
      .ok (Json.num value (fracPart.2.2 || expPart.2.2), expPart.2.1)
    else .error "Expecting value"

mutual

/-- One JSON value starting at the head of the input (whitespace already
skipped), per `json.loads`.  Fuel decreases on every recursive descent;
each level consumes at least one character first, so the fuel chosen at
the top level never runs out. -/
def parseValue : Nat → List Char → Except String (Json × List Char)
  | 0, _ => .error "Expecting value"
  | Nat.succ fuel, cs =>
    match cs with
    | [] => .error "Expecting value"
    | c :: rest =>
      if c = '"' then
        (parseStringBody (rest.length + 1) rest).map
          (fun p => (Json.str (String.mk p.1), p.2))
      else if c = '[' then
        match skipWs rest with
        | ']' :: r => .ok (Json.arr [], r)
        | cs2 => (parseArrItems fuel cs2).map (fun p => (Json.arr p.1, p.2))
      else if c = lBraceChar then
        match skipWs rest with
        | c2 :: r =>
          if c2 = rBraceChar then .ok (Json.obj [], r)
          else (parseObjItems fuel (c2 :: r)).map (fun p => (Json.obj p.1, p.2))
        | [] => .error "Expecting property name enclosed in double quotes"
      else if c = 't' then
        match stripPfx ['t', 'r', 'u', 'e'] cs with
        | some r => .ok (Json.bool true, r)
        | none => .error "Expecting value"
      else if c = 'f' then
        match stripPfx ['f', 'a', 'l', 's', 'e'] cs with
        | some r => .ok (Json.bool false, r)
        | none => .error "Expecting value"
      else if c = 'n' then
        match stripPfx ['n', 'u', 'l', 'l'] cs with
        | some r => .ok (Json.null, r)
        | none => .error "Expecting value"
      else if c = 'N' then
        match stripPfx ['N', 'a', 'N'] cs with
        | some r => .ok (Json.nan, r)
        | none => .error "Expecting value"
      else if c = 'I' then
        match stripPfx ['I', 'n', 'f', 'i', 'n', 'i', 't', 'y'] cs with
        | some r => .ok (Json.inf false, r)
        | none => .error "Expecting value"
      else if c = '-' then
        match stripPfx ['-', 'I', 'n', 'f', 'i', 'n', 'i', 't', 'y'] cs with
        | some r => .ok (Json.inf true, r)
        | none => parseNumber cs
      else if c.isDigit then parseNumber cs
      else .error "Expecting value"

/-- Elements of a JSON array after the first element's start (input points
at a value; the closing bracket of the empty array is handled by the
caller). -/
def parseArrItems : Nat → List Char → Except String (List Json × List Char)
  | 0, _ => .error "Expecting value"
  | Nat.succ fuel, cs =>
    match parseValue fuel cs with
    | .error e => .error e
    | .ok (j, rest) =>
      match skipWs rest with
      | ',' :: r => (parseArrItems fuel (skipWs r)).map (fun p => (j :: p.1, p.2))
      | ']' :: r => .ok ([j], r)
      | _ => .error "Expecting ',' delimiter"

/-- Members of a JSON object after the opening brace of a non-empty
object (input points at the first key). -/
def parseObjItems : Nat → List Char → Except String (List (String × Json) × List Char)
  | 0, _ => .error "Expecting property name enclosed in double quotes"
  | Nat.succ fuel, cs =>
    match cs with
    | [] => .error "Expecting property name enclosed in double quotes"
    | c :: rest =>
      if c = '"' then
        match parseStringBody (rest.length + 1) rest with
        | .error e => .error e
        | .ok (k, r1) =>
          match skipWs r1 with
          | ':' :: r2 =>
            match parseValue fuel (skipWs r2) with
            | .error e => .error e
            | .ok (v, r3) =>
              match skipWs r3 with
              | c2 :: r4 =>
                if c2 = ',' then
                  (parseObjItems fuel (skipWs r4)).map
                    (fun p => ((String.mk k, v) :: p.1, p.2))
                else if c2 = rBraceChar then .ok ([(String.mk k, v)], r4)
                else .error "Expecting ',' delimiter"
              | [] => .error "Expecting ',' delimiter"
          | _ => .error "Expecting ':' delimiter"
      else .error "Expecting property name enclosed in double quotes"

end

/-- Python's `json.loads` on a whole document: one value surrounded by
optional whitespace; anything left over is an error.  The diagnostics
reproduce the heads of CPython's messages without positions; CPython's
recursion-depth limit on deeply nested documents is not modelled (the
fuel is large enough for every input). -/
def parseJson (s : String) : Except String Json :=
  match parseValue (s.length + 2) (skipWs s.data) with
  | .error e => .error e
  | .ok (j, rest) => if skipWs rest = [] then .ok j else .error "Extra data"

/-! ## Python runtime semantics used by the renderer -/

/-- `dict` lookup on the parsed key/value list: the last binding of a key
wins, as in Python dict construction from repeated keys. -/
def objGet (kvs : List (String × Json)) (k : String) : Option Json :=
  (kvs.reverse.find? (fun p => p.1 == k)).map (fun p => p.2)

/-- `dict.get(k, d)`: the stored value, or the default. -/
def pyGetD (kvs : List (String × Json)) (k : String) (d : Json) : Json :=
  match objGet kvs k with
  | some v => v
  | none => d

/-- The keys of a `dict` in iteration order: first occurrence of each key. -/
def objKeys (kvs : List (String × Json)) : List String :=
  kvs.foldl (fun acc p => if acc.contains p.1 then acc else acc ++ [p.1]) []

/-- `type(x).__name__` for a parsed JSON value. -/
def pyTypeName : Json → String
  | .null => "NoneType"
  | .bool _ => "bool"
  | .num _ false => "int"
  | .num _ true => "float"
  | .nan => "float"
  | .inf _ => "float"
  | .str _ => "str"
  | .arr _ => "list"
  | .obj _ => "dict"

mutual

/-- Python `repr()` on a parsed JSON value, recursively for containers.
Container and string rendering follows CPython's shape; the exact escape
rules of string repr and the shortest-roundtrip repr of floats are
approximated (no claim exercises them: the repository only ever
stringifies strings and whole containers of strings). -/
def pyRepr : Json → String
  | .null => "None"
  | .bool b => if b then "True" else "False"
  | .num q false => toString q.num
  | .num q true =>
    if q.den = 1 then toString q.num ++ ".0" else toString q
  | .nan => "nan"
  | .inf neg => if neg then "-inf" else "inf"
  | .str s => "'" ++ s ++ "'"
  | .arr xs => "[" ++ pyReprList xs ++ "]"
  | .obj kvs => String.singleton lBraceChar ++ pyReprObj kvs ++ String.singleton rBraceChar

/-- Comma-separated reprs of a list's elements. -/
def pyReprList : List Json → String
  | [] => ""
  | [x] => pyRepr x
  | x :: y :: rest => pyRepr x ++ ", " ++ pyReprList (y :: rest)

/-- Comma-separated `key: value` reprs of a dict's entries. -/
def pyReprObj : List (String × Json) → String
  | [] => ""
  | [(k, v)] => "'" ++ k ++ "': " ++ pyRepr v
  | (k, v) :: e :: rest => "'" ++ k ++ "': " ++ pyRepr v ++ ", " ++ pyReprObj (e :: rest)

end

/-- Python `str()` as used by f-string interpolation: strings verbatim,
everything else via `repr`-style rendering (for the types here, `str`
and `repr` agree on non-strings). -/
def pyStr : Json → String
  | .str s => s
  | j => pyRepr j

/-- Python truthiness of a parsed JSON value. -/
def jsonTruthy : Json → Bool
  | .null => false
  | .bool b => b
  | .num q _ => !(q == 0)
  | .nan => true
  | .inf _ => true
  | .str s => !(s == "")
  | .arr xs => !xs.isEmpty
  | .obj kvs => !kvs.isEmpty

/-- Python `len()`: defined for `str`, `list` and `dict`, a `TypeError`
for everything else (its message as raised by CPython). -/
def pyLen : Json → Except String Nat
  | .str s => .ok s.length
  | .arr xs => .ok xs.length
  | .obj kvs => .ok (objKeys kvs).length
  | j => .error ("object of type '" ++ pyTypeName j ++ "' has no len()")

/-- Python `for`-iteration: the elements of a `list`, the one-character
strings of a `str`, the keys of a `dict`; a `TypeError` for everything
else (its message as raised by CPython). -/
def pyIter : Json → Except String (List Json)
  | .arr xs => .ok xs
  | .str s => .ok (s.data.map (fun c => Json.str (String.singleton c)))
  | .obj kvs => .ok ((objKeys kvs).map Json.str)
  | j => .error ("'" ++ pyTypeName j ++ "' object is not iterable")

/-- Attribute access `x.get(k, d)`: dict lookup, or the `AttributeError`
CPython raises when `x` is not a dict. -/
def pyGet (x : Json) (k : String) (d : Json) : Except String Json :=
  match x with
  | .obj kvs => .ok (pyGetD kvs k d)
  | j => .error ("'" ++ pyTypeName j ++ "' object has no attribute 'get'")

/-! ## The Streamlit renderer (`format_test_cases`) -/

/-- One Streamlit call, in program order.  `expander` and `spinner` are
context managers; their children follow them in the flat event list. -/
inductive Event where
  | setPageConfig (pageTitle pageIcon layout : String)
  | title (s : String)
  | markdown (s : String)
  | header (s : String)
  | textArea (label placeholder : String) (height : Nat)
  | button (label : String)
  | warning (s : String)
  | success (s : String)
  | error (s : String)
  | text (s : String)
  | code (body lang : String)
  | expander (label : String)
  | spinner (s : String)
  | stop
deriving DecidableEq, Repr

/-- An exception inside the renderer's `try` block: a `json.JSONDecodeError`
from `json.loads`, or any other exception (`str(e)` kept). -/
inductive PyErr where
  | jsonDecode (msg : String)
  | other (msg : String)
deriving DecidableEq, Repr

/-- The numbered step lines `st.markdown(f"{j}. {step}")` of the inner
`for` loop of `format_test_cases`, starting at index `j`. -/
def stepEvents (j : Nat) : List Json → List Event
  | [] => []
  | s :: rest => Event.markdown (toString j ++ ". " ++ pyStr s) :: stepEvents (j + 1) rest

/-- One iteration of the outer `for` loop of `format_test_cases`
(src/streamlit_app.py lines 90-101): the expander with the case's title,
the Title/Preconditions markdown, the steps block when `steps` is truthy,
and the Expected Result markdown; `dict.get` defaults supply
`'Untitled'`/`'N/A'` placeholders.  The events already emitted before an
exception are kept, with the exception alongside: the expander label's
f-string evaluates `test_case.get` before any call, so a non-dict element
raises before emitting anything. -/
def renderCase (i : Nat) (tc : Json) : List Event × Option PyErr :=
  match tc with
  | .obj kv =>
    let evs := [Event.expander ("Test Case " ++ toString i ++ ": " ++
                  pyStr (pyGetD kv "title" (Json.str "Untitled"))),
                Event.markdown ("**Title:** " ++ pyStr (pyGetD kv "title" (Json.str "N/A"))),
                Event.markdown ("**Preconditions:** " ++
                  pyStr (pyGetD kv "preconditions" (Json.str "N/A")))]
    let steps := pyGetD kv "steps" (Json.arr [])
    let expectedEv := Event.markdown ("**Expected Result:** " ++
                  pyStr (pyGetD kv "expected_result" (Json.str "N/A")))
    if jsonTruthy steps then
      match pyIter steps with
      | .error m => (evs ++ [Event.markdown "**Steps:**"], some (PyErr.other m))
      | .ok items =>
        (evs ++ [Event.markdown "**Steps:**"] ++ stepEvents 1 items ++ [expectedEv], none)
    else (evs ++ [expectedEv], none)
  | j => ([], some (PyErr.other ("'" ++ pyTypeName j ++ "' object has no attribute 'get'")))

/-- The outer `for` loop over `enumerate(test_cases, 1)`: renders each
case in turn, stopping at the first exception and keeping the events
already emitted. -/
def renderCases (i : Nat) : List Json → List Event × Option PyErr
  | [] => ([], none)
  | tc :: rest =>
    match renderCase i tc with
    | (evs, some e) => (evs, some e)
    | (evs, none) =>
      let p := renderCases (i + 1) rest
      (evs ++ p.1, p.2)

/-- The `try` block of `format_test_cases` (src/streamlit_app.py lines
79-101): `json.loads`, `test_data.get("test_cases", [])`, the emptiness
check with its warning, the success line with `len(test_cases)`, and the
loop.  Returns the emitted events and the exception, if one escaped. -/
def formatBody (json_content : String) : List Event × Option PyErr :=
  match parseJson json_content with
  | .error e => ([], some (PyErr.jsonDecode e))
  | .ok test_data =>
    match pyGet test_data "test_cases" (Json.arr []) with
    | .error m => ([], some (PyErr.other m))
    | .ok test_cases =>
      if !(jsonTruthy test_cases) then
        ([Event.warning "No test cases found in the response."], none)
      else
        match pyLen test_cases with
        | .error m => ([], some (PyErr.other m))
        | .ok n =>
          let succ := Event.success ("Generated " ++ toString n ++ " test cases:")
          match pyIter test_cases with
          | .error m => ([succ], some (PyErr.other m))
          | .ok items =>
            let p := renderCases 1 items
            (succ :: p.1, p.2)

/-- `format_test_cases` (src/streamlit_app.py lines 77-108): the `try`
block, with the `except json.JSONDecodeError` handler (error line with
the parser's diagnostic, then the raw response under a "Raw response:"
label) and the `except Exception` handler (error line only). -/
def format_test_cases (json_content : String) : List Event :=
  match formatBody json_content with
  | (evs, none) => evs
  | (evs, some (PyErr.jsonDecode m)) =>
    evs ++ [Event.error ("Failed to parse JSON response: " ++ m),
            Event.text "Raw response:", Event.code json_content "json"]
  | (evs, some (PyErr.other m)) =>
    evs ++ [Event.error ("Error formatting test cases: " ++ m)]

/-! ## Prompt builder and client operations -/

/-- A chat message by role, as built by `langchain_core`'s
`SystemMessage`/`HumanMessage` constructors: only the content matters to
the embedding. -/
inductive Message where
  | system (content : String)
  | user (content : String)
deriving DecidableEq, Repr

/-- The constant content of `SystemPrompt` (src/streamlit_app.py lines
23-53 and identically src/script.py lines 22-52), transcribed byte for
byte, trailing spaces included. -/
def systemPromptContent : String :=
  "You are an expert QA engineer. Generate comprehensive test cases in exact JSON format.\n" ++
  "\n" ++
  "ALWAYS output this exact JSON structure:\n" ++
  "\x7b\n" ++
  "  \"test_cases\": [\n" ++
  "    \x7b\n" ++
  "      \"title\": \"Descriptive title\", \n" ++
  "      \"preconditions\": \"Prerequisites\",\n" ++
  "      \"steps\": [\"step1\", \"step2\"],\n" ++
  "      \"expected_result\": \"Clear outcome\"\n" ++
  "    \x7d\n" ++
  "  ]\n" ++
  "\x7d\n" ++
  "\n" ++
  "Coverage requirements:\n" ++
  "- 1-2 happy path scenarios\n" ++
  "- 2-3 negative/edge cases  \n" ++
  "- 1-2 security/validation cases\n" ++
  "- Total: 4-8 test cases based on complexity\n" ++
  "\n" ++
  "Output ONLY raw JSON, no other text.\n" ++
  "\n" ++
  "Focus on creating tasks that are:\n" ++
  "- Clear and actionable\n" ++
  "- Include all necessary context\n" ++
  "- Properly structured for automation\n" ++
  "\n" ++
  "Remember: \n" ++
  "- Return ONLY the JSON object\n" ++
  "- Use EXACTLY the field names shown above (title, preconditions, steps, expected_result)\n" ++
  "- No additional text or explanation"

/-- The fixed preamble of the user message in both shells. -/
def userPreamble : String := "Please convert this test case into a task:\n\n"

/-- The two-message request built identically in both shells
(src/streamlit_app.py lines 68-69, src/script.py lines 68-69): the
constant system prompt, then the user message interpolating the
description into the preamble. -/
def buildMessages (user_message : String) : List Message :=
  [Message.system systemPromptContent,
   Message.user (userPreamble ++ user_message)]

/-- An exception escaping `generate_test_cases`: the `ValueError` for the
missing credential, or whatever `llm.ainvoke` raised (re-raised by its
handler), modelled by the transport's error string. -/
inductive GtcErr where
  | config (msg : String)
  | remote (msg : String)
deriving DecidableEq, Repr

/-- The message of the `ValueError` raised when the credential is absent,
in both shells. -/
def missingKeyMsg : String := "OPENAI_API_KEY environment variable is not set"

/-- `generate_test_cases` (src/streamlit_app.py lines 56-75).  `env` is
`os.getenv('OPENAI_API_KEY')` (None or the string); `transport` is a
stub for `llm.ainvoke` on the built messages.  Returns the result
together with the number of transport invocations: the `ValueError` for
an absent or empty credential is raised before any invocation. -/
def generate_test_cases (env : Option String) (user_message : String)
    (transport : List Message → Except String String) :
    Except GtcErr String × Nat :=
  match env with
  | none => (.error (GtcErr.config missingKeyMsg), 0)
  | some api_key =>
    if api_key = "" then (.error (GtcErr.config missingKeyMsg), 0)
    else
      match transport (buildMessages user_message) with
      | .ok content => (.ok content, 1)
      | .error e => (.error (GtcErr.remote e), 1)

/-- `main` of src/script.py (lines 55-76).  `env` as above; `user_message`
is the line read from standard input; `transport` stubs `llm.ainvoke`.
Returns the lines printed to standard output (or the `ValueError`, which
propagates out of `asyncio.run`) and the number of transport
invocations.  The `except Exception: pass` swallows every transport
failure, printing nothing. -/
def scriptMain (env : Option String) (user_message : String)
    (transport : List Message → Except String String) :
    Except String (List String) × Nat :=
  match env with
  | none => (.error missingKeyMsg, 0)
  | some api_key =>
    if api_key = "" then (.error missingKeyMsg, 0)
    else
      match transport (buildMessages user_message) with
      | .ok content => (.ok [content], 1)
      | .error _ => (.ok [], 1)

/-- Python `str.isspace`-style whitespace, as stripped by `str.strip()`
(ASCII part; `strip()`'s additional unicode space classes are not
modelled). -/
def pyIsSpace (c : Char) : Bool :=
  c = ' ' ∨ c = '\t' ∨ c = '\n' ∨ c = '\r' ∨ c = Char.ofNat 11 ∨ c = Char.ofNat 12

/-- Truth of `not s.strip()`: the string strips to empty exactly when all
its characters are whitespace. -/
def strippedEmpty (s : String) : Bool :=
  s.data.all pyIsSpace

/-- The text of the `st.error` shown by the browser shell when the
credential is absent. -/
def configErrorMsg : String :=
  "⚠️ OPENAI_API_KEY environment variable is not set. Please set it in your .env file."

/-- `main` of src/streamlit_app.py (lines 110-159), for one script run.
`env` as above; `user_input` is the text area's value, `clicked` whether
the generate button fired this run; `transport` stubs `llm.ainvoke`.
Returns the Streamlit events in call order and the number of transport
invocations.  Page config, title and tagline are emitted first; the
credential check follows, with `st.stop()` ending the run; then the
input widgets, the blank-input warning, or the spinner and the call with
its `except ValueError` / `except Exception` handlers. -/
def streamlitMain (env : Option String) (user_input : String) (clicked : Bool)
    (transport : List Message → Except String String) : List Event × Nat :=
  let pre := [Event.setPageConfig "Test Case Generator" "🧪" "wide",
              Event.title "🧪 Test Case Generator",
              Event.markdown "Generate comprehensive test cases using AI"]
  let keyOk := match env with
    | none => false
    | some api_key => !(api_key == "")
  if keyOk then
    let pre2 := pre ++ [Event.header "Input",
      Event.textArea "Enter your test case description:"
        "e.g., User should be able to log in, log out, and reset password." 100,
      Event.button "Generate Test Cases"]
    if clicked then
      if strippedEmpty user_input then
        (pre2 ++ [Event.warning "Please enter a test case description."], 0)
      else
        let pre3 := pre2 ++ [Event.spinner "Generating test cases..."]
        match generate_test_cases env user_input transport with
        | (.ok response, n) =>
          (pre3 ++ [Event.header "Generated Test Cases"] ++ format_test_cases response ++
            [Event.expander "View Raw JSON", Event.code response "json"], n)
        | (.error (GtcErr.config m), n) =>
          (pre3 ++ [Event.error ("Configuration error: " ++ m)], n)
        | (.error (GtcErr.remote m), n) =>
          (pre3 ++ [Event.error ("An error occurred: " ++ m)], n)
    else (pre2, 0)
  else (pre ++ [Event.error configErrorMsg, Event.stop], 0)

/-! ## Claims -/

/-- C1: for every invocation of the CLI main or the browser
`generate_test_cases` with the credential environment variable absent or
empty, the operation fails with the configuration `ValueError` and the
stub transport is never invoked (zero calls). -/
theorem c1_missing_credential_no_call (env : Option String)
    (h : env = none ∨ env = some "") (d : String)
    (transport : List Message → Except String String) :
    generate_test_cases env d transport =
      (.error (GtcErr.config missingKeyMsg), 0) ∧
    scriptMain env d transport = (.error missingKeyMsg, 0) := by
  rcases h with h | h <;> subst h <;> exact ⟨rfl, rfl⟩

/-- Witness for C1: the absent credential, a concrete description and a
stub transport that would answer if called. -/
theorem c1_missing_credential_no_call_witness :
    generate_test_cases none "Login flow" (fun _ => .ok "resp") =
      (.error (GtcErr.config missingKeyMsg), 0) ∧
    scriptMain none "Login flow" (fun _ => .ok "resp") =
      (.error missingKeyMsg, 0) :=
  c1_missing_credential_no_call none (Or.inl rfl) "Login flow" (fun _ => .ok "resp")

/-- C2: for every non-blank description, the prompt builder produces a
request of exactly two messages — the fixed system message, then a user
message whose content is the fixed preamble followed by the description
verbatim. -/
theorem c2_prompt_builder_two_messages (d : String) (h : strippedEmpty d = false) :
    buildMessages d =
      [Message.system systemPromptContent, Message.user (userPreamble ++ d)] ∧
    (buildMessages d).length = 2 :=
  ⟨rfl, rfl⟩

/-- Witness for C2 at the non-blank description "Login flow". -/
theorem c2_prompt_builder_two_messages_witness :
    strippedEmpty "Login flow" = false ∧
    (buildMessages "Login flow" =
      [Message.system systemPromptContent,
       Message.user (userPreamble ++ "Login flow")] ∧
     (buildMessages "Login flow").length = 2) :=
  ⟨by decide, c2_prompt_builder_two_messages "Login flow" (by decide)⟩

/-- C3: for every response text on which the JSON parser fails, the
renderer reports the malformed-response error carrying the parser's
diagnostic and still exposes the original response text unchanged in the
raw-view code block. -/
theorem c3_malformed_response (s e : String) (h : parseJson s = .error e) :
    format_test_cases s =
      [Event.error ("Failed to parse JSON response: " ++ e),
       Event.text "Raw response:", Event.code s "json"] := by
  simp [format_test_cases, formatBody, h]

/-- Witness for C3 at the non-JSON response text of the spec's example. -/
theorem c3_malformed_response_witness :
    parseJson "Sorry, I can't help with that." = .error "Expecting value" ∧
    format_test_cases "Sorry, I can't help with that." =
      [Event.error ("Failed to parse JSON response: " ++ "Expecting value"),
       Event.text "Raw response:",
       Event.code "Sorry, I can't help with that." "json"] :=
  ⟨rfl, c3_malformed_response _ _ rfl⟩

/-- C4: for every response text parsing to a JSON object whose
`test_cases` key is missing or bound to the empty array, the renderer
emits exactly the informational "no test cases" warning: zero cases and
no error. -/
theorem c4_no_test_cases (s : String) (kvs : List (String × Json))
    (h1 : parseJson s = .ok (Json.obj kvs))
    (h2 : objGet kvs "test_cases" = none ∨
          objGet kvs "test_cases" = some (Json.arr [])) :
    format_test_cases s = [Event.warning "No test cases found in the response."] := by
  rcases h2 with h2 | h2 <;>
    simp [format_test_cases, formatBody, h1, pyGet, pyGetD, h2, jsonTruthy]

/-- Witness for C4 at the round-trip input of the spec. -/
theorem c4_no_test_cases_witness :
    parseJson "\x7b\"test_cases\": []\x7d" =
      .ok (Json.obj [("test_cases", Json.arr [])]) ∧
    format_test_cases "\x7b\"test_cases\": []\x7d" =
      [Event.warning "No test cases found in the response."] :=
  ⟨rfl, c4_no_test_cases _ [("test_cases", Json.arr [])] rfl (Or.inr rfl)⟩

set_option maxRecDepth 8000 in
/-- C6: on the spec's fully populated single-case response text, the
renderer reports exactly one case and renders the given title, the three
steps numbered in order, and the given expected result. -/
theorem c6_login_example :
    format_test_cases
      ("\x7b\"test_cases\": [\x7b\"title\": \"Login works\", " ++
       "\"preconditions\": \"User exists\", " ++
       "\"steps\": [\"Open app\", \"Enter credentials\", \"Submit\"], " ++
       "\"expected_result\": \"User is logged in\"\x7d]\x7d") =
      [Event.success "Generated 1 test cases:",
       Event.expander "Test Case 1: Login works",
       Event.markdown "**Title:** Login works",
       Event.markdown "**Preconditions:** User exists",
       Event.markdown "**Steps:**",
       Event.markdown "1. Open app",
       Event.markdown "2. Enter credentials",
       Event.markdown "3. Submit",
       Event.markdown "**Expected Result:** User is logged in"] := rfl

/-- C7: for every remote-call failure (credential present, description
non-blank, transport failing), the CLI shell prints nothing and exits
normally, while the browser shell surfaces the failure as a visible
error message; both shells made the one transport call. -/
theorem c7_remote_failure_surfacing (k d e : String)
    (transport : List Message → Except String String)
    (hk : k ≠ "") (hd : strippedEmpty d = false)
    (ht : transport (buildMessages d) = .error e) :
    scriptMain (some k) d transport = (.ok [], 1) ∧
    Event.error ("An error occurred: " ++ e) ∈
      (streamlitMain (some k) d true transport).1 ∧
    (streamlitMain (some k) d true transport).2 = 1 := by
  refine ⟨?_, ?_, ?_⟩ <;>
    simp [scriptMain, streamlitMain, generate_test_cases, hk, hd, ht]

/-- Witness for C7 at a concrete credential, description and failing stub
transport. -/
theorem c7_remote_failure_surfacing_witness :
    ("k" : String) ≠ "" ∧ strippedEmpty "Login flow" = false ∧
    ((fun (_ : List Message) => (.error "boom" : Except String String))
        (buildMessages "Login flow") = .error "boom") ∧
    (scriptMain (some "k") "Login flow" (fun _ => .error "boom") = (.ok [], 1) ∧
     Event.error ("An error occurred: " ++ "boom") ∈
       (streamlitMain (some "k") "Login flow" true (fun _ => .error "boom")).1 ∧
     (streamlitMain (some "k") "Login flow" true (fun _ => .error "boom")).2 = 1) :=
  ⟨by decide, by decide, rfl,
   c7_remote_failure_surfacing "k" "Login flow" "boom" (fun _ => .error "boom")
     (by decide) (by decide) rfl⟩

/-! ## Helper predicates and lemmas for the remaining claims -/

/-- An `st.error` event. -/
def isErrorEvent : Event → Bool
  | .error _ => true
  | _ => false

/-- A rendered UI element: every Streamlit call that draws something
other than an error report or the script stop. -/
def isUIEvent : Event → Bool
  | .error _ => false
  | .stop => false
  | _ => true

/-- Shape under which the code renders a case without an exception: the
element is a dict and its `steps` entry, when present, is a list. -/
def caseShapeOk : Json → Bool
  | .obj kv =>
    match objGet kv "steps" with
    | none => true
    | some (.arr _) => true
    | some _ => false
  | _ => false

/-- The rendering of one well-shaped case that the spec's section 4.3
prescribes: expander header with the title, the title and preconditions
lines, a numbered list of the steps when there are any, and the expected
result, with the `Untitled`/`N/A` placeholders for missing fields. -/
def renderCaseSpec (i : Nat) : Json → List Event
  | .obj kv =>
    [Event.expander ("Test Case " ++ toString i ++ ": " ++
        pyStr (pyGetD kv "title" (Json.str "Untitled"))),
     Event.markdown ("**Title:** " ++ pyStr (pyGetD kv "title" (Json.str "N/A"))),
     Event.markdown ("**Preconditions:** " ++
        pyStr (pyGetD kv "preconditions" (Json.str "N/A")))] ++
    (match pyGetD kv "steps" (Json.arr []) with
     | .arr (s :: ss) => Event.markdown "**Steps:**" :: stepEvents 1 (s :: ss)
     | _ => []) ++
    [Event.markdown ("**Expected Result:** " ++
        pyStr (pyGetD kv "expected_result" (Json.str "N/A")))]
  | _ => []

/-- The spec's rendering of a list of well-shaped cases, numbered from `i`. -/
def renderCasesSpec (i : Nat) : List Json → List Event
  | [] => []
  | tc :: rest => renderCaseSpec i tc ++ renderCasesSpec (i + 1) rest

theorem stepEvents_not_error (j : Nat) (items : List Json) :
    ∀ ev ∈ stepEvents j items, isErrorEvent ev = false := by
  induction items generalizing j with
  | nil => intro ev h; simp [stepEvents] at h
  | cons s rest ih =>
    intro ev h
    simp only [stepEvents, List.mem_cons] at h
    rcases h with h | h
    · subst h; rfl
    · exact ih (j + 1) ev h

theorem renderCase_not_error (i : Nat) (tc : Json) :
    ∀ ev ∈ (renderCase i tc).1, isErrorEvent ev = false := by
  intro ev h
  unfold renderCase at h
  cases tc
  case obj kv =>
    dsimp only at h
    split at h
    · split at h
      · simp at h
        rcases h with h | h | h | h <;> subst h <;> rfl
      · simp at h
        rcases h with h | h | h | h | h | h <;>
          first
          | (subst h; rfl)
          | exact stepEvents_not_error 1 _ ev h
    · simp at h
      rcases h with h | h | h | h <;> subst h <;> rfl
  all_goals simp at h

theorem renderCases_not_error (tcs : List Json) (i : Nat) :
    ∀ ev ∈ (renderCases i tcs).1, isErrorEvent ev = false := by
  induction tcs generalizing i with
  | nil => intro ev h; simp [renderCases] at h
  | cons tc rest ih =>
    intro ev h
    unfold renderCases at h
    rcases hr : renderCase i tc with ⟨evs, err⟩
    rw [hr] at h
    cases err with
    | some e =>
      exact renderCase_not_error i tc ev (by rw [hr]; exact h)
    | none =>
      simp only [List.mem_append] at h
      rcases h with h | h
      · exact renderCase_not_error i tc ev (by rw [hr]; exact h)
      · exact ih (i + 1) ev h

theorem renderCaseSpec_not_error (i : Nat) (tc : Json) :
    ∀ ev ∈ renderCaseSpec i tc, isErrorEvent ev = false := by
  intro ev h
  unfold renderCaseSpec at h
  cases tc
  case obj kv =>
    dsimp only at h
    simp only [List.mem_append, List.mem_cons, List.not_mem_nil, or_false] at h
    rcases h with ((h | h | h) | h) | h
    · subst h; rfl
    · subst h; rfl
    · subst h; rfl
    · generalize pyGetD kv "steps" (Json.arr []) = stepsVal at h
      cases stepsVal
      case arr xs =>
        cases xs with
        | nil => simp at h
        | cons s ss =>
          simp only [List.mem_cons] at h
          rcases h with h | h
          · subst h; rfl
          · exact stepEvents_not_error 1 _ ev h
      all_goals simp at h
    · subst h; rfl
  all_goals simp at h

theorem renderCasesSpec_not_error (tcs : List Json) (i : Nat) :
    ∀ ev ∈ renderCasesSpec i tcs, isErrorEvent ev = false := by
  induction tcs generalizing i with
  | nil => intro ev h; simp [renderCasesSpec] at h
  | cons tc rest ih =>
    intro ev h
    simp only [renderCasesSpec, List.mem_append] at h
    rcases h with h | h
    · exact renderCaseSpec_not_error i tc ev h
    · exact ih (i + 1) ev h

theorem renderCase_of_shapeOk (i : Nat) (tc : Json) (h : caseShapeOk tc = true) :
    renderCase i tc = (renderCaseSpec i tc, none) := by
  cases tc <;> simp [caseShapeOk] at h
  case obj kv =>
    rcases hs : objGet kv "steps" with _ | v
    · simp [renderCase, renderCaseSpec, pyGetD, hs, jsonTruthy]
    · rw [hs] at h
      cases v <;> simp at h
      case arr xs =>
        cases xs with
        | nil => simp [renderCase, renderCaseSpec, pyGetD, hs, jsonTruthy]
        | cons s ss =>
          simp [renderCase, renderCaseSpec, pyGetD, hs, jsonTruthy, pyIter]

theorem renderCases_of_shapeOk (tcs : List Json) (i : Nat)
    (h : tcs.all caseShapeOk = true) :
    renderCases i tcs = (renderCasesSpec i tcs, none) := by
  induction tcs generalizing i with
  | nil => rfl
  | cons tc rest ih =>
    simp only [List.all_cons, Bool.and_eq_true] at h
    unfold renderCases
    rw [renderCase_of_shapeOk i tc h.1, ih (i + 1) h.2]
    simp [renderCasesSpec]

/-- A list of events whose first event is an `st.success` report. -/
def isSuccessHead : List Event → Bool
  | Event.success _ :: _ => true
  | _ => false

theorem formatBody_not_error (s : String) :
    ∀ ev ∈ (formatBody s).1, isErrorEvent ev = false := by
  intro ev h
  unfold formatBody at h
  cases hp : parseJson s with
  | error e => rw [hp] at h; simp at h
  | ok td =>
    rw [hp] at h
    dsimp only at h
    cases hg : pyGet td "test_cases" (Json.arr []) with
    | error m => rw [hg] at h; simp at h
    | ok tcs =>
      rw [hg] at h
      dsimp only at h
      cases htr : jsonTruthy tcs with
      | false => rw [htr] at h; simp at h; subst h; rfl
      | true =>
        rw [htr] at h
        simp only [Bool.not_true, Bool.false_eq_true, if_false] at h
        cases hl : pyLen tcs with
        | error m => rw [hl] at h; simp at h
        | ok n =>
          rw [hl] at h
          dsimp only at h
          cases hi : pyIter tcs with
          | error m => rw [hi] at h; simp at h; subst h; rfl
          | ok items =>
            rw [hi] at h
            simp at h
            rcases h with h | h
            · subst h; rfl
            · exact renderCases_not_error items 1 ev h

theorem formatBody_shape (s : String) :
    (∃ m, formatBody s = ([], some m)) ∨
    formatBody s = ([Event.warning "No test cases found in the response."], none) ∨
    (∃ n rest err, formatBody s = (Event.success n :: rest, err)) := by
  unfold formatBody
  cases parseJson s with
  | error e => exact Or.inl ⟨_, rfl⟩
  | ok td =>
    dsimp only
    cases pyGet td "test_cases" (Json.arr []) with
    | error m => exact Or.inl ⟨_, rfl⟩
    | ok tcs =>
      dsimp only
      cases jsonTruthy tcs with
      | false => exact Or.inr (Or.inl rfl)
      | true =>
        simp only [Bool.not_true, Bool.false_eq_true, if_false]
        cases pyLen tcs with
        | error m => exact Or.inl ⟨_, rfl⟩
        | ok n =>
          dsimp only
          cases pyIter tcs with
          | error m => exact Or.inr (Or.inr ⟨_, _, _, rfl⟩)
          | ok items => exact Or.inr (Or.inr ⟨_, _, _, rfl⟩)

/-- Counterexample to C5: the response text whose `test_cases` is the
non-empty sequence `["x"]` parses as JSON, yet the renderer errors out
(the string element has no `.get`) and renders no case at all — no
expander and no placeholder fields appear. -/
theorem c5_counterexample :
    parseJson "\x7b\"test_cases\": [\"x\"]\x7d" =
      .ok (Json.obj [("test_cases", Json.arr [Json.str "x"])]) ∧
    (format_test_cases "\x7b\"test_cases\": [\"x\"]\x7d").any isErrorEvent = true ∧
    (format_test_cases "\x7b\"test_cases\": [\"x\"]\x7d").any
      (fun ev => match ev with | Event.expander _ => true | _ => false) = false :=
  ⟨rfl, rfl, rfl⟩

/-- C5 (amended): for every response text that parses to a JSON object
whose `test_cases` is a non-empty array of objects whose `steps` fields,
when present, are arrays, the renderer reports the total count and then
renders every case — title, preconditions, numbered steps and expected
result, with the placeholder for each missing field — and emits no
error.  (For elements of any other shape the code reports a formatting
error instead of rendering placeholders.) -/
theorem c5_amended_rendering (s : String) (kvs : List (String × Json))
    (tcs : List Json)
    (h1 : parseJson s = .ok (Json.obj kvs))
    (h2 : objGet kvs "test_cases" = some (Json.arr tcs))
    (h3 : tcs ≠ [])
    (h4 : tcs.all caseShapeOk = true) :
    format_test_cases s =
      Event.success ("Generated " ++ toString tcs.length ++ " test cases:") ::
        renderCasesSpec 1 tcs ∧
    ∀ ev ∈ format_test_cases s, isErrorEvent ev = false := by
  have htr : jsonTruthy (Json.arr tcs) = true := by
    cases tcs with
    | nil => exact absurd rfl h3
    | cons a l => rfl
  have hval : pyGetD kvs "test_cases" (Json.arr []) = Json.arr tcs := by
    unfold pyGetD; rw [h2]
  have hmain : format_test_cases s =
      Event.success ("Generated " ++ toString tcs.length ++ " test cases:") ::
        renderCasesSpec 1 tcs := by
    unfold format_test_cases formatBody
    rw [h1]
    dsimp only
    simp only [pyGet]
    rw [hval, htr]
    simp only [Bool.not_true, Bool.false_eq_true, if_false, pyLen, pyIter]
    rw [renderCases_of_shapeOk tcs 1 h4]
  refine ⟨hmain, ?_⟩
  rw [hmain]
  intro ev h
  simp only [List.mem_cons] at h
  rcases h with h | h
  · subst h; rfl
  · exact renderCasesSpec_not_error tcs 1 ev h

/-- Witness for C5 (amended) at the spec's placeholder example: one case
object with only an empty `steps` list; every missing field renders as
its placeholder and no error is emitted. -/
theorem c5_amended_rendering_witness :
    parseJson "\x7b\"test_cases\": [\x7b\"steps\": []\x7d]\x7d" =
      .ok (Json.obj [("test_cases", Json.arr [Json.obj [("steps", Json.arr [])]])]) ∧
    objGet [("test_cases", Json.arr [Json.obj [("steps", Json.arr [])]])] "test_cases" =
      some (Json.arr [Json.obj [("steps", Json.arr [])]]) ∧
    ([Json.obj [("steps", Json.arr [])]] : List Json) ≠ [] ∧
    ([Json.obj [("steps", Json.arr [])]] : List Json).all caseShapeOk = true ∧
    (format_test_cases "\x7b\"test_cases\": [\x7b\"steps\": []\x7d]\x7d" =
      Event.success ("Generated " ++ toString ([Json.obj [("steps", Json.arr [])]] : List Json).length ++
          " test cases:") ::
        renderCasesSpec 1 [Json.obj [("steps", Json.arr [])]] ∧
     ∀ ev ∈ format_test_cases "\x7b\"test_cases\": [\x7b\"steps\": []\x7d]\x7d",
       isErrorEvent ev = false) :=
  ⟨rfl, rfl, List.cons_ne_nil _ _, rfl,
   c5_amended_rendering _ _ _ rfl rfl (List.cons_ne_nil _ _) rfl⟩

/-- Counterexample to C8: with the credential absent, the browser shell
has already rendered UI elements (the page config, title and tagline)
before the configuration error is reported — among the events preceding
the configuration error there is a UI-rendering call. -/
theorem c8_counterexample :
    (((streamlitMain none "Login flow" false (fun _ => .ok "resp")).1.takeWhile
        (fun ev => match ev with
          | Event.error m => !(m == configErrorMsg)
          | _ => true)).any isUIEvent) = true := rfl

/-- C8 (amended): with the credential absent or empty, the browser shell
renders exactly the page config, title and tagline, then reports the
configuration error and stops — before any input UI (header, text area,
button) is rendered and with zero transport calls, whatever the input
and button state. -/
theorem c8_amended_config_check (env : Option String)
    (h : env = none ∨ env = some "") (user_input : String) (clicked : Bool)
    (transport : List Message → Except String String) :
    streamlitMain env user_input clicked transport =
      ([Event.setPageConfig "Test Case Generator" "🧪" "wide",
        Event.title "🧪 Test Case Generator",
        Event.markdown "Generate comprehensive test cases using AI",
        Event.error configErrorMsg, Event.stop], 0) := by
  rcases h with h | h <;> subst h <;> rfl

/-- Witness for C8 (amended) at the absent credential with the button
clicked and a stub transport that would answer if called. -/
theorem c8_amended_config_check_witness :
    streamlitMain none "Login flow" true (fun _ => .ok "resp") =
      ([Event.setPageConfig "Test Case Generator" "🧪" "wide",
        Event.title "🧪 Test Case Generator",
        Event.markdown "Generate comprehensive test cases using AI",
        Event.error configErrorMsg, Event.stop], 0) :=
  c8_amended_config_check none (Or.inl rfl) "Login flow" true (fun _ => .ok "resp")

/-- Counterexample to C9: the CLI shell performs no blank check — with
the credential present and an empty (blank) description it still invokes
the stub transport (one call) and prints the response. -/
theorem c9_counterexample :
    strippedEmpty "" = true ∧
    scriptMain (some "k") "" (fun _ => .ok "resp") = (.ok ["resp"], 1) :=
  ⟨rfl, rfl⟩

/-- C9 (amended): the browser shell rejects a blank description before
the core is called — a warning and zero transport calls — while the
command-line shell performs no such check and invokes the remote model
once even for a blank description. -/
theorem c9_amended_blank_rejection (k d : String)
    (transport : List Message → Except String String)
    (hk : k ≠ "") (hd : strippedEmpty d = true) :
    ((streamlitMain (some k) d true transport).2 = 0 ∧
     Event.warning "Please enter a test case description." ∈
       (streamlitMain (some k) d true transport).1) ∧
    (scriptMain (some k) d transport).2 = 1 := by
  refine ⟨⟨?_, ?_⟩, ?_⟩
  · simp [streamlitMain, hk, hd]
  · simp [streamlitMain, hk, hd]
  · rcases ht : transport (buildMessages d) with e | c <;> simp [scriptMain, hk, ht]

/-- Witness for C9 (amended) at a one-space (blank) description, a
present credential and a stub transport. -/
theorem c9_amended_blank_rejection_witness :
    (("k" : String) ≠ "") ∧ strippedEmpty " " = true ∧
    ((((streamlitMain (some "k") " " true (fun _ => .ok "resp")).2 = 0 ∧
       Event.warning "Please enter a test case description." ∈
         (streamlitMain (some "k") " " true (fun _ => .ok "resp")).1) ∧
      (scriptMain (some "k") " " (fun _ => .ok "resp")).2 = 1)) :=
  ⟨by decide, rfl,
   c9_amended_blank_rejection "k" " " (fun _ => .ok "resp") (by decide) rfl⟩

/-- C10: the renderer is total — for every input string its run ends in
exactly one of: the "no test cases" warning alone, a displayed error
message, or a successful rendering (success report first, no error
anywhere), because both JSON decode errors and all other exceptions are
caught internally. -/
theorem c10_renderer_totality (s : String) :
    (format_test_cases s = [Event.warning "No test cases found in the response."] ∨
     (∃ m, Event.error m ∈ format_test_cases s) ∨
     (isSuccessHead (format_test_cases s) = true ∧
      ∀ ev ∈ format_test_cases s, isErrorEvent ev = false)) ∧
    ¬(format_test_cases s = [Event.warning "No test cases found in the response."] ∧
      ∃ m, Event.error m ∈ format_test_cases s) ∧
    ¬(format_test_cases s = [Event.warning "No test cases found in the response."] ∧
      isSuccessHead (format_test_cases s) = true) ∧
    ¬((∃ m, Event.error m ∈ format_test_cases s) ∧
      ∀ ev ∈ format_test_cases s, isErrorEvent ev = false) := by
  refine ⟨?_, ?_, ?_, ?_⟩
  · rcases formatBody_shape s with ⟨m, hb⟩ | hb | ⟨n, rest, err, hb⟩
    · right; left
      unfold format_test_cases
      rw [hb]
      cases m with
      | jsonDecode m2 =>
        exact ⟨"Failed to parse JSON response: " ++ m2, by simp⟩
      | other m2 =>
        exact ⟨"Error formatting test cases: " ++ m2, by simp⟩
    · left
      unfold format_test_cases
      rw [hb]
    · have hne := formatBody_not_error s
      rw [hb] at hne
      cases err with
      | none =>
        right; right
        unfold format_test_cases
        rw [hb]
        exact ⟨rfl, hne⟩
      | some e =>
        right; left
        unfold format_test_cases
        rw [hb]
        cases e with
        | jsonDecode m2 =>
          exact ⟨"Failed to parse JSON response: " ++ m2, by simp⟩
        | other m2 =>
          exact ⟨"Error formatting test cases: " ++ m2, by simp⟩
  · rintro ⟨hA, m, hB⟩
    rw [hA] at hB
    simp at hB
  · rintro ⟨hA, hC⟩
    rw [hA] at hC
    simp [isSuccessHead] at hC
  · rintro ⟨⟨m, hB⟩, hC⟩
    have := hC _ hB
    simp [isErrorEvent] at this
